import Mathlib

/-!
Shallow embedding of the grid-trading bot (trading_bot.py) and its helper
logger (helpers/logger.py).  Python `Decimal` values are modelled as `ℚ`
(Decimal arithmetic on the values appearing here is exact), timestamps as
`ℚ`, and strings as `String`.  Fallible paths (a caught exception, a raised
ValueError) are modelled with `Option`.
-/

/-- Embeds `TradingConfig` (trading_bot.py lines 18-38).  `wait_time` is an
int in Python; it is kept as `ℚ` since it only enters `ℚ` arithmetic. -/
structure TradingConfig where
  ticker : String
  contract_id : String
  quantity : ℚ
  take_profit : ℚ
  tick_size : ℚ
  direction : String
  max_orders : ℕ
  wait_time : ℚ
  exchange : String
  grid_step : ℚ
  stop_price : ℚ
  pause_price : ℚ
  boost_mode : Bool
deriving DecidableEq

/-- Embeds the `close_order_side` property (lines 35-38):
`'buy' if self.direction == "sell" else 'sell'`. -/
def TradingConfig.close_order_side (c : TradingConfig) : String :=
  if c.direction = "sell" then "buy" else "sell"

/-- One row of the CSV transaction ledger written by
`TradingLogger.log_transaction` (logger.py lines 117-130); the timestamp
column is not modelled (it never enters any decision). -/
structure LedgerEntry where
  order_id : String
  side : String
  quantity : ℚ
  price : ℚ
  status : String
deriving DecidableEq

/-- An element of `self.active_close_orders` as built in `run`
(trading_bot.py lines 506-513): a dict `{'id', 'price', 'size'}`. -/
structure CloseOrder where
  id : String
  price : ℚ
  size : ℚ
deriving DecidableEq

/-- A WebSocket push message as read by `order_update_handler`
(lines 104-155).  `filled_size = none` models a payload whose
`filled_size` field is missing or not convertible by `Decimal(...)`
(line 115 then raises, and the handler's `except` swallows it). -/
structure PushMessage where
  contract_id : String
  order_id : String
  status : String
  side : String
  order_type : String
  filled_size : Option ℚ
  size : ℚ
  price : ℚ
deriving DecidableEq

/-- The bot's mutable state relevant to the claims (`__init__`,
lines 73-84, plus `self.order_filled_amount`): events are `Bool` flags
(set / not set), the ledger is the list of CSV rows appended so far. -/
structure BotState where
  current_order_status : Option String
  order_filled_amount : ℚ
  order_filled_event : Bool
  order_canceled_event : Bool
  ledger : List LedgerEntry
  position_amt : ℚ
  active_close_orders : List CloseOrder
  last_close_orders : ℕ
  last_open_order_time : ℚ
  last_log_time : ℚ
deriving DecidableEq

/-- Embeds `order_update_handler` (trading_bot.py lines 104-155) as a state
transformer.  Control flow follows the source line by line:
contract filter (108-109); `Decimal(message.get('filled_size'))` (115) --
a failure here is caught by the `except` at 152-154, leaving every field
untouched; the unconditional status write for OPEN orders (116-117); the
FILLED branch (119-131) which signals the fill event for OPEN orders and
appends a ledger row (with the message `size` as quantity) for every order
type; the CANCELED branch (132-144) which signals the cancel event and,
when the filled amount is positive, appends a ledger row (with the filled
amount as quantity) for OPEN orders only; PARTIALLY_FILLED and other
statuses (145-150) only log.  Log lines themselves are not modelled. -/
def orderUpdateHandler (cfg : TradingConfig) (st : BotState) (msg : PushMessage) :
    BotState :=
  if msg.contract_id ≠ cfg.contract_id then st else
  match msg.filled_size with
  | none => st
  | some filled_size =>
    let st1 := if msg.order_type = "OPEN" then
        { st with current_order_status := some msg.status } else st
    if msg.status = "FILLED" then
      let st2 := if msg.order_type = "OPEN" then
          { st1 with order_filled_amount := filled_size, order_filled_event := true }
        else st1
      { st2 with ledger := st2.ledger ++
          [⟨msg.order_id, msg.side, msg.size, msg.price, msg.status⟩] }
    else if msg.status = "CANCELED" then
      if msg.order_type = "OPEN" then
        let st2 := { st1 with order_filled_amount := filled_size,
                              order_canceled_event := true }
        if 0 < filled_size then
          { st2 with ledger := st2.ledger ++
              [⟨msg.order_id, msg.side, filled_size, msg.price, msg.status⟩] }
        else st2
      else st1
    else st1

/-- Python `round(x, 2)` on `Decimal` values: round half to even at two
decimal places (used at trading_bot.py lines 381-382 and 389-390). -/
def round2 (x : ℚ) : ℚ :=
  let y : ℚ := x * 100
  let f : ℤ := ⌊y⌋
  let r : ℚ := y - f
  let n : ℤ :=
    if r < 1/2 then f
    else if 1/2 < r then f + 1
    else if f % 2 = 0 then f else f + 1
  (n : ℚ) / 100

/-- Embeds `sorted(self.active_close_orders, key=lambda o: o["price"],
reverse=self.config.direction == "sell")` (line 359).  Python's sort is
stable; for the total preorder given by the price key, stable sorts agree,
so a stable insertion sort is an exact model. -/
def sortCloseOrders (direction : String) (orders : List CloseOrder) :
    List CloseOrder :=
  if direction = "sell" then
    orders.insertionSort (fun a b => b.price ≤ a.price)
  else
    orders.insertionSort (fun a b => a.price ≤ b.price)

/-- The reference close order and step count selected by
`_meet_grid_step_condition` (lines 356-365): with two or more active close
orders, the second entry of the price-sorted list and step count 2; with
exactly one, that order and step count 1; `none` on an empty list (the
source never reaches the selection in that case). -/
def gridReference (direction : String) (orders : List CloseOrder) :
    Option (ℚ × ℚ) :=
  if 1 < orders.length then
    match (sortCloseOrders direction orders)[1]? with
    | some o => some (o.price, 2)
    | none => none
  else
    match orders[0]? with
    | some o => some (o.price, 1)
    | none => none

/-- Embeds `_meet_grid_step_condition` (trading_bot.py lines 353-395) as a
function of the active close orders, the fetched best bid/ask (`none`
models the fetch raising, lines 372-374), and the previous value of
`self.grid_except_price`.  Result: `none` for the `ValueError` raised on an
invalid direction (line 393), otherwise `some (permit, grid_except_price)`
with the possibly-updated diagnostic price.  The in-place re-sorting of
`self.active_close_orders` (line 359) only serves the reference selection
and is modelled inside `gridReference`. -/
def meetGridStepCondition (cfg : TradingConfig) (orders : List CloseOrder)
    (bbo : Option (ℚ × ℚ)) (prevExcept : Option ℚ) :
    Option (Bool × Option ℚ) :=
  match orders with
  | [] => some (true, prevExcept)
  | _ :: _ =>
    match gridReference cfg.direction orders with
    | none => none
    | some (nextClosePrice, stepCount) =>
      match bbo with
      | none => some (false, prevExcept)
      | some (bid, ask) =>
        if bid ≤ 0 ∨ ask ≤ 0 ∨ ask ≤ bid then some (false, prevExcept)
        else if cfg.direction = "buy" then
          let newOrderClosePrice := ask * (1 + cfg.take_profit / 100)
          if 1 + cfg.grid_step / 100 * stepCount
              < nextClosePrice / newOrderClosePrice then
            some (true, prevExcept)
          else
            some (false, some (round2 (nextClosePrice /
              (1 + cfg.grid_step / 100 * stepCount) /
              (1 - cfg.take_profit / 100))))
        else if cfg.direction = "sell" then
          let newOrderClosePrice := bid * (1 - cfg.take_profit / 100)
          if 1 + cfg.grid_step / 100 * stepCount
              < newOrderClosePrice / nextClosePrice then
            some (true, prevExcept)
          else
            some (false, some (round2 (nextClosePrice /
              (1 + cfg.grid_step / 100 * stepCount) /
              (1 - cfg.take_profit / 100))))
        else none

/-- The close-side exchange call issued by `_handle_order_result`:
`placeMarketOrder` embeds `place_market_order(contract_id, qty, side)`
(lines 234-238, 408-412); `placeCloseOrder` embeds the four-argument
`place_close_order(contract_id, qty, price, side)` (lines 250-255,
307-312); `placeCloseOrderNoPrice` embeds the three-argument call
`place_close_order(contract_id, qty, side)` at lines 296-300, which passes
the side string in the price parameter's position and supplies no side. -/
inductive CloseAction where
  | placeMarketOrder (contractId : String) (qty : ℚ) (side : String)
  | placeCloseOrder (contractId : String) (qty : ℚ) (price : ℚ) (side : String)
  | placeCloseOrderNoPrice (contractId : String) (qty : ℚ) (side : String)
  | noClose
deriving DecidableEq

/-- The close-price computation duplicated at lines 245-248 and 302-305:
`filled_price * (1 + take_profit/100)` when the close side is `'sell'`,
`filled_price * (1 - take_profit/100)` otherwise. -/
def closePriceFor (cfg : TradingConfig) (filledPrice : ℚ) : ℚ :=
  if cfg.close_order_side = "sell" then
    filledPrice * (1 + cfg.take_profit / 100)
  else
    filledPrice * (1 - cfg.take_profit / 100)

/-- Embeds the close-order decision of `_handle_order_result`
(trading_bot.py lines 227-326).  `fillResolved` is the branch condition
`self.order_filled_event.is_set() or order_result.status == 'FILLED'`
(line 232); `orderFilledAmount` is the value of `self.order_filled_amount`
after the cancel/wait sequence of lines 266-291 has resolved (those
exchange round-trips are external I/O and are abstracted into this
parameter).  In the resolved-fill branch the source sizes the close at
`self.config.quantity`; in the cancel branch, at the filled amount.  In
the boost cancel branch the source issues the three-argument
`place_close_order` call and afterwards (line 316-317) raises `NameError`
on the unbound `close_price`, caught at line 324 — the placement itself
has already been awaited, so the action is still emitted. -/
def handleOrderResult (cfg : TradingConfig) (fillResolved : Bool)
    (filledPrice : ℚ) (orderFilledAmount : ℚ) : CloseAction :=
  if fillResolved then
    if cfg.boost_mode then
      .placeMarketOrder cfg.contract_id cfg.quantity cfg.close_order_side
    else
      .placeCloseOrder cfg.contract_id cfg.quantity
        (closePriceFor cfg filledPrice) cfg.close_order_side
  else if 0 < orderFilledAmount then
    if cfg.boost_mode then
      .placeCloseOrderNoPrice cfg.contract_id orderFilledAmount
        cfg.close_order_side
    else
      .placeCloseOrder cfg.contract_id orderFilledAmount
        (closePriceFor cfg filledPrice) cfg.close_order_side
  else
    .noClose

/-- The covered amount `sum(Decimal(order.get('size', 0)) ...)` computed at
lines 400-404 (and identically at 520-524, 335-339). -/
def activeCloseAmount (orders : List CloseOrder) : ℚ :=
  (orders.map (fun o => o.size)).sum

/-- The action taken by `_rebalance_position`: a correcting market order,
an error log plus nothing else, or nothing (balanced).  The source contains
no order-cancellation call in any branch. -/
inductive RebalanceAction where
  | marketClose (contractId : String) (qty : ℚ) (side : String)
  | alertOnly
  | balanced
deriving DecidableEq

/-- Embeds `_rebalance_position` (trading_bot.py lines 398-420):
`position_amt > covered` places `place_market_order(contract_id, quantity,
close_order_side)`; `position_amt < covered` only logs an error; equality
does nothing. -/
def rebalancePosition (cfg : TradingConfig) (position_amt : ℚ)
    (orders : List CloseOrder) : RebalanceAction :=
  if activeCloseAmount orders < position_amt then
    .marketClose cfg.contract_id cfg.quantity cfg.close_order_side
  else if position_amt < activeCloseAmount orders then
    .alertOnly
  else
    .balanced

/-- Embeds `_check_price_condition` (trading_bot.py lines 423-455) as a
function of the fetched best bid/ask (`none` models the fetch raising,
lines 435-437).  Returns `(stop_trading, pause_trading)`. -/
def checkPriceCondition (cfg : TradingConfig) (bbo : Option (ℚ × ℚ)) :
    Bool × Bool :=
  if cfg.pause_price = cfg.stop_price ∧ cfg.stop_price = -1 then
    (false, false)
  else
    match bbo with
    | none => (false, false)
    | some (bid, ask) =>
      if bid ≤ 0 ∨ ask ≤ 0 ∨ ask ≤ bid then (false, false)
      else
        let stop : Bool :=
          if cfg.stop_price ≠ -1 then
            if cfg.direction = "buy" then decide (cfg.stop_price ≤ ask)
            else if cfg.direction = "sell" then decide (bid ≤ cfg.stop_price)
            else false
          else false
        let pause : Bool :=
          if cfg.pause_price ≠ -1 then
            if cfg.direction = "buy" then decide (cfg.pause_price ≤ ask)
            else if cfg.direction = "sell" then decide (bid ≤ cfg.pause_price)
            else false
          else false
        (stop, pause)

/-- The per-cycle mismatch test of `run` (line 536):
`abs(position_amt - active_close_amount) > (1 * quantity)`. -/
def mismatchFlag (position_amt active_close_amount quantity : ℚ) : Bool :=
  decide (1 * quantity < |position_amt - active_close_amount|)

/-- One loop cycle's update of `mismatch_detected_count` (lines 535-543):
increment on mismatch, reset to zero otherwise; on reaching 3 the counter
resets to zero and the correction (alert plus `_rebalance_position`)
fires.  Returns the new counter and whether the correction fired. -/
def mismatchStep (c : ℕ) (m : Bool) : ℕ × Bool :=
  let c1 := if m then c + 1 else 0
  if 3 ≤ c1 then (0, true) else (c1, false)

/-- Iterates `mismatchStep` over a sequence of per-cycle mismatch flags,
returning for each cycle whether the correction fired in that cycle. -/
def mismatchRun (c : ℕ) : List Bool → List Bool
  | [] => []
  | m :: ms =>
    let s := mismatchStep c m
    s.2 :: mismatchRun s.1 ms

/-- The two mutable fields read and written by `_calculate_wait_time`
(`self.last_close_orders`, `self.last_open_order_time`). -/
structure WaitState where
  last_close_orders : ℕ
  last_open_order_time : ℚ
deriving DecidableEq

/-- Embeds `_calculate_wait_time` (trading_bot.py lines 159-188) as a pure
function of the active close-order count, the two mutable fields, and the
current time (the several `time.time()` calls of one invocation are
modelled as a single instant `now`).  Returns the wait time and the
updated fields; `int(...)` truncation at line 188 is `⌊·⌋` (the operand is
nonnegative in that branch). -/
def calculateWaitTime (cfg : TradingConfig) (activeCount : ℕ)
    (s : WaitState) (now : ℚ) : ℚ × WaitState :=
  if activeCount < s.last_close_orders then
    (0, { s with last_close_orders := activeCount })
  else
    let s1 : WaitState := { s with last_close_orders := activeCount }
    if cfg.max_orders ≤ activeCount then (1, s1)
    else if s1.last_open_order_time = 0 then
      (0, { s1 with last_open_order_time := now })
    else if cfg.wait_time < now - s1.last_open_order_time then (0, s1)
    else (((⌊cfg.wait_time - (now - s1.last_open_order_time)⌋ : ℤ) : ℚ), s1)

/-- Concrete fixture: a sell-direction configuration with take-profit 1%,
grid step 2%, both price guards disabled, boost mode off. -/
def cfgSell : TradingConfig :=
  ⟨"TICK", "c1", 1, 1, 1/100, "sell", 5, 10, "edgex", 2, -1, -1, false⟩

/-- Concrete fixture: `cfgSell` with boost mode on. -/
def cfgSellBoost : TradingConfig :=
  ⟨"TICK", "c1", 1, 1, 1/100, "sell", 5, 10, "edgex", 2, -1, -1, true⟩

/-- Concrete fixture: `cfgSell` with stop price 100 and pause price 120. -/
def cfgSellStop : TradingConfig :=
  ⟨"TICK", "c1", 1, 1, 1/100, "sell", 5, 10, "edgex", 2, 100, 120, false⟩

/-- Concrete fixture: the bot state right after `__init__`. -/
def stEmpty : BotState := ⟨none, 0, false, false, [], 0, [], 0, 0, 0⟩

/-- Concrete fixture: a terminal FILLED push for an OPEN order on the
configured contract. -/
def msgFilled : PushMessage :=
  ⟨"c1", "o1", "FILLED", "sell", "OPEN", some 1, 1, 100⟩

/-- Concrete fixture: a FILLED push whose `filled_size` cannot be
converted to a decimal number. -/
def msgBadFill : PushMessage :=
  ⟨"c1", "o2", "FILLED", "sell", "OPEN", none, 1, 100⟩

/-- Claim C10: a push whose `filled_size` is missing or not convertible
aborts the order-update handler via its internal exception handler before
any state change — no event is set, no status or filled-amount field is
written, no ledger entry is appended — and the exception does not
propagate (the handler is total and returns the state unchanged). -/
theorem C10_handler_invalid_filled_size (cfg : TradingConfig) (st : BotState)
    (msg : PushMessage) (h : msg.filled_size = none) :
    orderUpdateHandler cfg st msg = st := by
  unfold orderUpdateHandler
  rw [h]
  split <;> rfl

/-- Witness for C10 at a concrete malformed push. -/
theorem C10_witness :
    orderUpdateHandler cfgSell stEmpty msgBadFill = stEmpty :=
  C10_handler_invalid_filled_size cfgSell stEmpty msgBadFill rfl

/-- Claim C6 counterexample: the claim says the handler writes no
loop-owned field beyond signaling the wait events — in particular that the
order-status and filled-amount fields are never written directly by the
handler.  Processing one FILLED push for an OPEN order writes both. -/
theorem C6_counterexample :
    (orderUpdateHandler cfgSell stEmpty msgFilled).current_order_status
        ≠ stEmpty.current_order_status ∧
    (orderUpdateHandler cfgSell stEmpty msgFilled).order_filled_amount
        ≠ stEmpty.order_filled_amount := by
  decide

/-- Claim C6 amended: the handler writes the order-status field, the
filled-amount field, the two wait events and the transaction ledger, but
no other loop-owned trading state — position amount, the active
close-order list, the close-order counter and both timestamps are
untouched by every push it processes. -/
theorem C6_amended_frame (cfg : TradingConfig) (st : BotState)
    (msg : PushMessage) :
    (orderUpdateHandler cfg st msg).position_amt = st.position_amt ∧
    (orderUpdateHandler cfg st msg).active_close_orders
        = st.active_close_orders ∧
    (orderUpdateHandler cfg st msg).last_close_orders = st.last_close_orders ∧
    (orderUpdateHandler cfg st msg).last_open_order_time
        = st.last_open_order_time ∧
    (orderUpdateHandler cfg st msg).last_log_time = st.last_log_time := by
  unfold orderUpdateHandler
  repeat' split
  all_goals exact ⟨rfl, rfl, rfl, rfl, rfl⟩

/-- Claim C2 (code bug): in boost mode the full-fill path does place a
market order, but the timeout-cancel path with a positive filled remainder
issues the three-argument `place_close_order` call (the limit-close
operation, with the side string in the price position) instead of
`place_market_order`. -/
theorem C2_boost_close_ops :
    handleOrderResult cfgSellBoost true 100 1
      = CloseAction.placeMarketOrder "c1" 1 "buy" ∧
    handleOrderResult cfgSellBoost false 100 (1/2)
      = CloseAction.placeCloseOrderNoPrice "c1" (1/2) "buy" := by
  constructor <;>
    norm_num [handleOrderResult, cfgSellBoost, TradingConfig.close_order_side]

/-- Claim C5: with boost mode disabled, any positive filled remainder
triggers a limit close order sized to exactly that remainder — the full
order quantity in the resolved-fill branch, the filled amount in the
cancel branch — priced at fill price times `1 + take_profit/100` when the
close side is sell and times `1 - take_profit/100` when it is buy; and for
direction sell, take-profit 1% and a fill at 100 that price is 99. -/
theorem C5_nonboost_limit_close (cfg : TradingConfig) (fp amt : ℚ)
    (hboost : cfg.boost_mode = false) :
    handleOrderResult cfg true fp amt
      = CloseAction.placeCloseOrder cfg.contract_id cfg.quantity
          (if cfg.close_order_side = "sell" then fp * (1 + cfg.take_profit / 100)
           else fp * (1 - cfg.take_profit / 100)) cfg.close_order_side ∧
    (0 < amt →
      handleOrderResult cfg false fp amt
        = CloseAction.placeCloseOrder cfg.contract_id amt
            (if cfg.close_order_side = "sell" then fp * (1 + cfg.take_profit / 100)
             else fp * (1 - cfg.take_profit / 100)) cfg.close_order_side) ∧
    (cfg.direction = "sell" → cfg.take_profit = 1 → fp = 100 →
      (if cfg.close_order_side = "sell" then fp * (1 + cfg.take_profit / 100)
       else fp * (1 - cfg.take_profit / 100)) = 99) := by
  refine ⟨?_, fun hamt => ?_, fun hdir htp hfp => ?_⟩
  · simp [handleOrderResult, hboost, closePriceFor]
  · simp [handleOrderResult, hboost, closePriceFor, hamt]
  · have hside : cfg.close_order_side = "buy" := by
      simp [TradingConfig.close_order_side, hdir]
    rw [hside, htp, hfp, if_neg (by decide)]
    norm_num

/-- Witness for C5 at a concrete sell-direction configuration: full fill,
partial fill of one half after cancel, and the 100-to-99 scenario. -/
theorem C5_witness :
    handleOrderResult cfgSell true 100 (1/2)
      = CloseAction.placeCloseOrder cfgSell.contract_id cfgSell.quantity
          (if cfgSell.close_order_side = "sell"
           then 100 * (1 + cfgSell.take_profit / 100)
           else 100 * (1 - cfgSell.take_profit / 100)) cfgSell.close_order_side ∧
    handleOrderResult cfgSell false 100 (1/2)
      = CloseAction.placeCloseOrder cfgSell.contract_id (1/2)
          (if cfgSell.close_order_side = "sell"
           then 100 * (1 + cfgSell.take_profit / 100)
           else 100 * (1 - cfgSell.take_profit / 100)) cfgSell.close_order_side ∧
    (if cfgSell.close_order_side = "sell"
     then (100 : ℚ) * (1 + cfgSell.take_profit / 100)
     else 100 * (1 - cfgSell.take_profit / 100)) = 99 :=
  ⟨(C5_nonboost_limit_close cfgSell 100 (1/2) rfl).1,
   (C5_nonboost_limit_close cfgSell 100 (1/2) rfl).2.1 (by norm_num),
   (C5_nonboost_limit_close cfgSell 100 (1/2) rfl).2.2 rfl rfl rfl⟩

/-- Claim C4: the reconciler issues the one-quantity close-side market
order exactly when the reported position exceeds the summed active
close-order size, and when the position is strictly smaller it only logs
and alerts (no order placement, and the source has no cancellation call in
any branch). -/
theorem C4_reconciler (cfg : TradingConfig) (p : ℚ)
    (orders : List CloseOrder) :
    (rebalancePosition cfg p orders
        = RebalanceAction.marketClose cfg.contract_id cfg.quantity
            cfg.close_order_side
      ↔ activeCloseAmount orders < p) ∧
    (p < activeCloseAmount orders →
      rebalancePosition cfg p orders = RebalanceAction.alertOnly) := by
  unfold rebalancePosition
  split_ifs with h1 h2
  · exact ⟨⟨fun _ => h1, fun _ => rfl⟩, fun h => absurd h1 (by linarith)⟩
  · exact ⟨⟨fun h => by simp at h, fun h => absurd h h1⟩, fun _ => rfl⟩
  · exact ⟨⟨fun h => by simp at h, fun h => absurd h h1⟩,
     fun h => absurd h h2⟩

/-- Witness for C4: position 5 against covered amount 3 yields the market
close order, position 2 against covered amount 3 yields the alert only. -/
theorem C4_witness :
    (rebalancePosition cfgSell 5 [⟨"a", 99, 3⟩]
        = RebalanceAction.marketClose cfgSell.contract_id cfgSell.quantity
            cfgSell.close_order_side
      ↔ activeCloseAmount [⟨"a", 99, 3⟩] < 5) ∧
    rebalancePosition cfgSell 2 [⟨"a", 99, 3⟩] = RebalanceAction.alertOnly :=
  ⟨(C4_reconciler cfgSell 5 [⟨"a", 99, 3⟩]).1,
   (C4_reconciler cfgSell 2 [⟨"a", 99, 3⟩]).2
     (by norm_num [activeCloseAmount])⟩

/-- Claim C7: with both stop and pause prices at the sentinel −1 the price
guard reports neither condition for any market data; and for direction
sell with the stop price configured and a valid uncrossed snapshot, the
stop condition holds exactly when best-bid ≤ stop price and the pause
condition exactly when best-bid ≤ pause price. -/
theorem C7_price_guard (cfg : TradingConfig) :
    (∀ bbo, cfg.stop_price = -1 → cfg.pause_price = -1 →
      checkPriceCondition cfg bbo = (false, false)) ∧
    (∀ bid ask : ℚ, cfg.direction = "sell" → cfg.stop_price ≠ -1 →
      0 < bid → bid < ask →
      checkPriceCondition cfg (some (bid, ask))
        = (decide (bid ≤ cfg.stop_price), decide (bid ≤ cfg.pause_price))) := by
  constructor
  · intro bbo hs hp
    unfold checkPriceCondition
    rw [if_pos ⟨by rw [hs, hp], hs⟩]
  · intro bid ask hdir hs hbid hba
    have h2 : ¬ (bid ≤ 0 ∨ ask ≤ 0 ∨ ask ≤ bid) := by
      push_neg
      exact ⟨by linarith, by linarith, by linarith⟩
    by_cases hpp : cfg.pause_price = -1
    · have hb : ¬ bid ≤ (-1 : ℚ) := by linarith
      simp [checkPriceCondition, hdir, hs, h2, hpp, hb]
    · simp [checkPriceCondition, hdir, hs, h2, hpp]

/-- Witness for C7: the inert guard at a concrete snapshot, and the
sell-direction guard with stop 100 and pause 120 at best-bid 99. -/
theorem C7_witness :
    checkPriceCondition cfgSell (some (99, 101)) = (false, false) ∧
    checkPriceCondition cfgSellStop (some (99, 101))
      = (decide ((99 : ℚ) ≤ cfgSellStop.stop_price),
         decide ((99 : ℚ) ≤ cfgSellStop.pause_price)) :=
  ⟨(C7_price_guard cfgSell).1 (some (99, 101)) rfl rfl,
   (C7_price_guard cfgSellStop).2 99 101 rfl (by norm_num [cfgSellStop])
     (by norm_num) (by norm_num)⟩

/-- Claim C9: the cooldown calculation returns zero wait whenever the
current active close-order count is strictly below the count recorded at
the previous check, for every configured wait time and every last-entry
timestamp. -/
theorem C9_cooldown_zero_on_decrease (cfg : TradingConfig)
    (activeCount : ℕ) (s : WaitState) (now : ℚ)
    (h : activeCount < s.last_close_orders) :
    (calculateWaitTime cfg activeCount s now).1 = 0 := by
  unfold calculateWaitTime
  rw [if_pos h]

/-- Witness for C9: count dropped from 3 to 1 one second after the last
entry order, with a 10-second base wait. -/
theorem C9_witness :
    (calculateWaitTime cfgSell 1 ⟨3, 1000⟩ 1001).1 = 0 :=
  C9_cooldown_zero_on_decrease cfgSell 1 ⟨3, 1000⟩ 1001 (by decide)

/-- Claim C1 counterexample: the handler keeps no record of resolved
orders, so applying it twice to the same terminal FILLED push appends a
second, duplicate transaction-ledger row — the resulting state differs
from the once-applied state. -/
theorem C1_counterexample :
    (orderUpdateHandler cfgSell (orderUpdateHandler cfgSell stEmpty msgFilled)
        msgFilled).ledger.length = 2 ∧
    (orderUpdateHandler cfgSell stEmpty msgFilled).ledger.length = 1 ∧
    orderUpdateHandler cfgSell (orderUpdateHandler cfgSell stEmpty msgFilled)
        msgFilled
      ≠ orderUpdateHandler cfgSell stEmpty msgFilled := by
  decide

/-- Claim C1 amended: reprocessing the same terminal push (FILLED, or
CANCELED for an OPEN order) for a matching contract leaves the order
state idempotent — status, filled amount and both wait events are
unchanged by the second application, so no second fill-wait is released
and no second close-order placement is triggered — but the transaction
ledger is appended to again: the second application re-appends exactly
the rows the first application appended. -/
theorem C1_amended_thm (cfg : TradingConfig) (st : BotState)
    (msg : PushMessage) (hc : msg.contract_id = cfg.contract_id)
    (hterm : msg.status = "FILLED" ∨
      (msg.status = "CANCELED" ∧ msg.order_type = "OPEN")) :
    (orderUpdateHandler cfg (orderUpdateHandler cfg st msg) msg).current_order_status
        = (orderUpdateHandler cfg st msg).current_order_status ∧
    (orderUpdateHandler cfg (orderUpdateHandler cfg st msg) msg).order_filled_amount
        = (orderUpdateHandler cfg st msg).order_filled_amount ∧
    (orderUpdateHandler cfg (orderUpdateHandler cfg st msg) msg).order_filled_event
        = (orderUpdateHandler cfg st msg).order_filled_event ∧
    (orderUpdateHandler cfg (orderUpdateHandler cfg st msg) msg).order_canceled_event
        = (orderUpdateHandler cfg st msg).order_canceled_event ∧
    (orderUpdateHandler cfg (orderUpdateHandler cfg st msg) msg).ledger
        = (orderUpdateHandler cfg st msg).ledger
          ++ (orderUpdateHandler cfg st msg).ledger.drop st.ledger.length := by
  rcases hfs : msg.filled_size with _ | fs
  · simp [orderUpdateHandler, hc, hfs]
  · rcases hterm with hF | ⟨hC, hO⟩
    · by_cases ho : msg.order_type = "OPEN" <;>
        simp [orderUpdateHandler, hc, hfs, hF, ho]
    · by_cases hpos : 0 < fs <;>
        simp [orderUpdateHandler, hc, hfs, hC, hO, hpos]

/-- Witness for C1 amended at the concrete duplicate FILLED push. -/
theorem C1_witness :
    (orderUpdateHandler cfgSell (orderUpdateHandler cfgSell stEmpty msgFilled)
        msgFilled).current_order_status
        = (orderUpdateHandler cfgSell stEmpty msgFilled).current_order_status ∧
    (orderUpdateHandler cfgSell (orderUpdateHandler cfgSell stEmpty msgFilled)
        msgFilled).order_filled_amount
        = (orderUpdateHandler cfgSell stEmpty msgFilled).order_filled_amount ∧
    (orderUpdateHandler cfgSell (orderUpdateHandler cfgSell stEmpty msgFilled)
        msgFilled).order_filled_event
        = (orderUpdateHandler cfgSell stEmpty msgFilled).order_filled_event ∧
    (orderUpdateHandler cfgSell (orderUpdateHandler cfgSell stEmpty msgFilled)
        msgFilled).order_canceled_event
        = (orderUpdateHandler cfgSell stEmpty msgFilled).order_canceled_event ∧
    (orderUpdateHandler cfgSell (orderUpdateHandler cfgSell stEmpty msgFilled)
        msgFilled).ledger
        = (orderUpdateHandler cfgSell stEmpty msgFilled).ledger
          ++ (orderUpdateHandler cfgSell stEmpty msgFilled).ledger.drop
              stEmpty.ledger.length :=
  C1_amended_thm cfgSell stEmpty msgFilled rfl (Or.inl rfl)

/-- Every cycle in which the correction fires is preceded by mismatch
flags in that cycle and the two before it, provided the incoming counter
is at most 2 (it always is: the counter resets to 0 on firing and never
exceeds 2 between cycles). -/
theorem mismatchRun_fire_aux (ms : List Bool) : ∀ c i : ℕ, c ≤ 2 →
    (mismatchRun c ms)[i]? = some true →
    ms[i]? = some true ∧ (1 ≤ i → ms[i - 1]? = some true) ∧
    (2 ≤ i → ms[i - 2]? = some true) ∧ 2 ≤ i + c := by
  induction ms with
  | nil =>
    intro c i _ h
    simp [mismatchRun] at h
  | cons m ms ih =>
    intro c i hc h
    have hrun : mismatchRun c (m :: ms)
        = (mismatchStep c m).2 :: mismatchRun (mismatchStep c m).1 ms := rfl
    rw [hrun] at h
    cases m with
    | false =>
      rw [show mismatchStep c false = (0, false) from rfl] at h
      cases i with
      | zero => simp at h
      | succ j =>
        rw [List.getElem?_cons_succ] at h
        obtain ⟨H1, H2, H3, H4⟩ := ih 0 j (by omega) h
        obtain ⟨k, rfl⟩ : ∃ k, j = k + 2 := ⟨j - 2, by omega⟩
        refine ⟨by simpa using H1, fun _ => ?_, fun _ => ?_, by omega⟩
        · have he : k + 2 + 1 - 1 = k + 1 + 1 := by omega
          rw [he, List.getElem?_cons_succ]
          simpa using H2 (by omega)
        · have he : k + 2 + 1 - 2 = k + 1 := by omega
          rw [he, List.getElem?_cons_succ]
          simpa using H3 (by omega)
    | true =>
      rcases Nat.lt_or_ge (c + 1) 3 with hlt | hge
      · rw [show mismatchStep c true
            = if 3 ≤ c + 1 then (0, true) else (c + 1, false) from rfl,
            if_neg (by omega)] at h
        cases i with
        | zero => simp at h
        | succ j =>
          rw [List.getElem?_cons_succ] at h
          obtain ⟨H1, H2, H3, H4⟩ := ih (c + 1) j (by omega) h
          refine ⟨by simpa using H1, fun _ => ?_, fun h2 => ?_, by omega⟩
          · have he : j + 1 - 1 = j := by omega
            rw [he]
            cases j with
            | zero => simp
            | succ k =>
              rw [List.getElem?_cons_succ]
              simpa using H2 (by omega)
          · rcases Nat.lt_or_ge j 2 with hj2 | hj2
            · have hj1 : j = 1 := by omega
              subst hj1
              simp
            · obtain ⟨k, rfl⟩ : ∃ k, j = k + 2 := ⟨j - 2, by omega⟩
              have he : k + 2 + 1 - 2 = k + 1 := by omega
              rw [he, List.getElem?_cons_succ]
              simpa using H3 (by omega)
      · rw [show mismatchStep c true
            = if 3 ≤ c + 1 then (0, true) else (c + 1, false) from rfl,
            if_pos (by omega)] at h
        cases i with
        | zero =>
          exact ⟨by simp, fun h1 => absurd h1 (by omega),
            fun h2 => absurd h2 (by omega), by omega⟩
        | succ j =>
          rw [List.getElem?_cons_succ] at h
          obtain ⟨H1, H2, H3, H4⟩ := ih 0 j (by omega) h
          obtain ⟨k, rfl⟩ : ∃ k, j = k + 2 := ⟨j - 2, by omega⟩
          refine ⟨by simpa using H1, fun _ => ?_, fun _ => ?_, by omega⟩
          · have he : k + 2 + 1 - 1 = k + 1 + 1 := by omega
            rw [he, List.getElem?_cons_succ]
            simpa using H2 (by omega)
          · have he : k + 2 + 1 - 2 = k + 1 := by omega
            rw [he, List.getElem?_cons_succ]
            simpa using H3 (by omega)

/-- Claim C8: starting from counter 0 as in `run`, the correction fires on
a cycle only if that cycle and the two preceding cycles all detected the
mismatch `|position − covered| > 1 × quantity` — one or two consecutive
mismatches never fire — and any cycle within tolerance resets the counter
to zero. -/
theorem C8_mismatch_counter :
    (∀ (obs : List (ℚ × ℚ)) (q : ℚ) (i : ℕ),
      (mismatchRun 0 (obs.map fun o => mismatchFlag o.1 o.2 q))[i]?
          = some true →
      2 ≤ i ∧
      (obs.map fun o => mismatchFlag o.1 o.2 q)[i]? = some true ∧
      (obs.map fun o => mismatchFlag o.1 o.2 q)[i - 1]? = some true ∧
      (obs.map fun o => mismatchFlag o.1 o.2 q)[i - 2]? = some true) ∧
    (∀ c : ℕ, mismatchStep c false = (0, false)) := by
  constructor
  · intro obs q i h
    obtain ⟨H1, H2, H3, H4⟩ := mismatchRun_fire_aux _ 0 i (by omega) h
    have h2i : 2 ≤ i := by omega
    exact ⟨h2i, H1, H2 (by omega), H3 h2i⟩
  · intro c
    rfl

/-- Witness for C8: position 5 against covered amount 3 with quantity 1
mismatches; three consecutive such cycles fire the correction at index 2,
and the three flags leading up to it are all mismatches. -/
theorem C8_witness :
    2 ≤ 2 ∧
    ([((5 : ℚ), (3 : ℚ)), (5, 3), (5, 3)].map
        fun o => mismatchFlag o.1 o.2 1)[2]? = some true ∧
    ([((5 : ℚ), (3 : ℚ)), (5, 3), (5, 3)].map
        fun o => mismatchFlag o.1 o.2 1)[2 - 1]? = some true ∧
    ([((5 : ℚ), (3 : ℚ)), (5, 3), (5, 3)].map
        fun o => mismatchFlag o.1 o.2 1)[2 - 2]? = some true :=
  C8_mismatch_counter.1 [(5, 3), (5, 3), (5, 3)] 1 2
    (by norm_num [mismatchFlag, mismatchRun, mismatchStep])

/-- Claim C3 counterexample: direction sell, take-profit 1%, grid step 2%,
one active close order at 99, best bid/ask 100/101.  Entry is denied and
the exposed expected price is 98.04, but substituting 98.04 for the market
price gives a prospective close of 98.04 × (1 − 1/100), whose
sell-direction ratio against the reference close price 99 is not the
threshold 1 + 2/100 × 1 — so the back-solved price does not yield the
threshold boundary as claimed. -/
theorem C3_counterexample :
    meetGridStepCondition cfgSell [⟨"a", 99, 1⟩] (some (100, 101)) none
      = some (false, some (2451 / 25)) ∧
    ¬ ((2451 / 25 : ℚ) * (1 - cfgSell.take_profit / 100) / 99
        = 1 + cfgSell.grid_step / 100 * 1) := by
  constructor
  · norm_num [meetGridStepCondition, gridReference, round2, cfgSell]
  · norm_num [cfgSell]

/-- Claim C3 amended: whenever the evaluator denies entry on valid market
data (either direction), the exposed expected price is well defined and
equals the reference close price divided by the threshold
`1 + grid_step/100 × step_count` and by `1 − take_profit/100`, rounded
half-to-even to two decimals; before rounding, that back-solved value E
satisfies E × (1 − take_profit/100) × threshold = reference exactly — the
same single formula for both directions, not the claimed direction-specific
boundary equation. -/
theorem C3_amended_thm (cfg : TradingConfig) (orders : List CloseOrder)
    (bid ask : ℚ) (prev : Option ℚ) (ref step e : ℚ)
    (hdir : cfg.direction = "buy" ∨ cfg.direction = "sell")
    (href : gridReference cfg.direction orders = some (ref, step))
    (hbid : 0 < bid) (hba : bid < ask)
    (hT : (1 : ℚ) + cfg.grid_step / 100 * step ≠ 0)
    (htp : (1 : ℚ) - cfg.take_profit / 100 ≠ 0)
    (hden : meetGridStepCondition cfg orders (some (bid, ask)) prev
        = some (false, some e)) :
    e = round2 (ref / (1 + cfg.grid_step / 100 * step) /
        (1 - cfg.take_profit / 100)) ∧
    ref / (1 + cfg.grid_step / 100 * step) / (1 - cfg.take_profit / 100)
        * (1 - cfg.take_profit / 100) * (1 + cfg.grid_step / 100 * step)
      = ref := by
  have hvalid : ¬ (bid ≤ 0 ∨ ask ≤ 0 ∨ ask ≤ bid) := by
    push_neg
    exact ⟨by linarith, by linarith, by linarith⟩
  constructor
  · cases orders with
    | nil => simp [gridReference] at href
    | cons o os =>
      simp only [meetGridStepCondition, href] at hden
      rw [if_neg hvalid] at hden
      rcases hdir with hb | hs
      · rw [hb] at hden
        rw [if_pos rfl] at hden
        split at hden
        · simp at hden
        · simp only [Option.some.injEq, Prod.mk.injEq] at hden
          exact hden.2.symm
      · rw [hs] at hden
        rw [if_neg (by decide), if_pos rfl] at hden
        split at hden
        · simp at hden
        · simp only [Option.some.injEq, Prod.mk.injEq] at hden
          exact hden.2.symm
  · rw [div_mul_cancel₀ _ htp, div_mul_cancel₀ _ hT]

/-- Witness for C3 amended at the concrete denied configuration of the
counterexample. -/
theorem C3_witness :
    (2451 / 25 : ℚ)
      = round2 (99 / (1 + cfgSell.grid_step / 100 * 1) /
          (1 - cfgSell.take_profit / 100)) ∧
    (99 : ℚ) / (1 + cfgSell.grid_step / 100 * 1) /
        (1 - cfgSell.take_profit / 100) * (1 - cfgSell.take_profit / 100)
        * (1 + cfgSell.grid_step / 100 * 1)
      = 99 :=
  C3_amended_thm cfgSell [⟨"a", 99, 1⟩] 100 101 none 99 1 (2451 / 25)
    (Or.inr rfl) (by norm_num [gridReference]) (by norm_num) (by norm_num)
    (by norm_num [cfgSell]) (by norm_num [cfgSell])
    (by norm_num [meetGridStepCondition, gridReference, round2, cfgSell])
